import Mathlib

/-!
Verification of the saving-rate computation in
`Documentation/example_notebooks/IndShockConsumerType.py`.

The notebook defines one piece of self-contained logic:

* `savRteFunc(SomeType, m, t)` computes
  `inc = (SomeType.Rfree - 1.0) * (m - 1.0) + 1.0`,
  `cns = SomeType.solution[t].cFunc(m)`, `sav = inc - cns`, and returns
  `sav / inc`;
* an aggregation
  `np.mean([savRteFunc(IndShockExample, history[t], 0) for t in range(T)], axis=1)`
  that applies the function elementwise across agents of each time row and
  averages across agents.

We embed this over the rationals.  Python list indexing is modelled by
`pyGet`, which accepts negative indices counted from the end and reports
out-of-range indices as `none` (an `IndexError` in Python).  An `Option`
layer represents a raised exception propagating to the caller.  `np.mean`
over an empty slice does not raise in NumPy; it emits a runtime warning and
returns NaN, which we model with the `NpFloat` type.
-/

/-- One period of the solved policy sequence: `solution[t]` exposes the
consumption function `cFunc` for that period. -/
structure PeriodSolution where
  cFunc : ℚ → ℚ

/-- The fields of a solved and simulated agent type that the notebook's
saving-rate code touches: the risk-free return factor `Rfree`, the solved
policy sequence `solution`, and the simulated market-resources history
`history` (time-by-agent, here the tracked variable mNrm). -/
structure AgentType where
  Rfree : ℚ
  solution : List PeriodSolution
  history : List (List ℚ)

/-- Python list indexing: a nonnegative index reads from the front, an index
in `[-len, -1]` reads from the end (`xs[len + i]`), anything else raises
`IndexError` (modelled as `none`). -/
def pyGet {α : Type} (xs : List α) (i : ℤ) : Option α :=
  if 0 ≤ i then xs.get? i.toNat
  else if -(xs.length : ℤ) ≤ i then xs.get? ((xs.length : ℤ) + i).toNat
  else none

/-- The normalized income flow `inc = (Rfree - 1)*(m - 1) + 1` computed by
`savRteFunc` (source line 292). -/
def income (SomeType : AgentType) (m : ℚ) : ℚ :=
  (SomeType.Rfree - 1) * (m - 1) + 1

/-- Embedding of `savRteFunc` (source lines 275-298): income, consumption at
the period-`t` policy, saving, and the saving rate `sav / inc`.  A failed
policy lookup (Python `IndexError`) is `none`. -/
def savRteFunc (SomeType : AgentType) (m : ℚ) (t : ℤ) : Option ℚ :=
  (pyGet SomeType.solution t).map (fun sol =>
    let inc := (SomeType.Rfree - 1) * (m - 1) + 1
    let cns := sol.cFunc m
    let sav := inc - cns
    sav / inc)

/-- State-passing form of `savRteFunc`: the Python function receives the
mutable object `SomeType`; its body only reads attributes, so the embedded
transition returns the object as the function body leaves it. -/
def savRteFuncSt (SomeType : AgentType) (m : ℚ) (t : ℤ) :
    Option ℚ × AgentType :=
  (savRteFunc SomeType m t, SomeType)

/-- A NumPy floating value as far as this code is concerned: either NaN or
an ordinary (here: rational) number. -/
inductive NpFloat where
  | nan : NpFloat
  | val (q : ℚ) : NpFloat
deriving DecidableEq, Repr

/-- `np.mean` over one row: the arithmetic mean for a nonempty row, NaN
(with a runtime warning, not an exception) for an empty one. -/
def npMean (xs : List ℚ) : NpFloat :=
  if xs.length = 0 then NpFloat.nan
  else NpFloat.val (xs.sum / (xs.length : ℚ))

/-- Elementwise application that propagates a raised exception: if `f`
fails on any element the whole vectorized call fails. -/
def optMap {α β : Type} (f : α → Option β) : List α → Option (List β)
  | [] => some []
  | a :: as =>
    match f a, optMap f as with
    | some b, some bs => some (b :: bs)
    | _, _ => none

/-- Vectorized `savRteFunc` on one time row of the history: the NumPy call
`savRteFunc(SomeType, history[t], fixed)` broadcasts the arithmetic over the
agent dimension. -/
def savRteRow (SomeType : AgentType) (row : List ℚ) (t : ℤ) :
    Option (List ℚ) :=
  optMap (fun m => savRteFunc SomeType m t) row

/-- Embedding of the aggregation on source lines 308 and 322:
`np.mean([savRteFunc(SomeType, history[t], fixed) for t in range(T)], axis=1)`
applies `savRteFunc` elementwise to every time row with the same fixed
policy index and means each row across agents. -/
def savRteSeries (SomeType : AgentType) (history : List (List ℚ))
    (t : ℤ) : Option (List NpFloat) :=
  (optMap (fun row => savRteRow SomeType row t) history).map
    (fun rows => rows.map npMean)

/-- A policy function moves by at most the change in its argument: the
"slope at most 1" property of a consumption function. -/
def slopeLE1 (f : ℚ → ℚ) : Prop :=
  ∀ x y : ℚ, x ≤ y → f y - f x ≤ y - x

/- Concrete instances used in the scenario claims. -/

/-- Policy with `cFunc(2.0) = 1.8`, as in the spec scenario. -/
def scenPolicy1 : PeriodSolution :=
  ⟨fun m => 9 / 10 * m⟩

/-- Agent with `R = 1.03` and the scenario policy. -/
def scenAgent1 : AgentType :=
  ⟨103 / 100, [scenPolicy1], []⟩

/-- The linear policy `cFunc(m) = m` of the aggregation scenario. -/
def linPolicy : PeriodSolution :=
  ⟨fun m => m⟩

/-- Agent with `R = 1.03` and the linear policy. -/
def scenAgent2 : AgentType :=
  ⟨103 / 100, [linPolicy], []⟩

/-- Constant-consumption policy used as a witness for monotonicity. -/
def constPolicy : PeriodSolution :=
  ⟨fun _ => 1⟩

/-- Agent with `R = 1.03` and constant consumption. -/
def constAgent : AgentType :=
  ⟨103 / 100, [constPolicy], []⟩

/-- Agent with one simulated history. -/
def histAgent1 : AgentType :=
  ⟨103 / 100, [linPolicy], [[1, 2]]⟩

/-- Agent equal to `histAgent1` except for its history. -/
def histAgent2 : AgentType :=
  ⟨103 / 100, [linPolicy], [[5], [7]]⟩

/- Helper lemmas. -/

/-- `pyGet` at a valid nonnegative index is plain list lookup. -/
theorem pyGet_ofNat (xs : List α) (t : ℕ) :
    pyGet xs (t : ℤ) = xs.get? t := by
  simp [pyGet]

/-- `savRteFunc` at a valid nonnegative index, written with `income`. -/
theorem savRteFunc_eq_of_get (A : AgentType) (m : ℚ) (t : ℕ)
    (sol : PeriodSolution) (h : A.solution.get? t = some sol) :
    savRteFunc A m (t : ℤ)
      = some ((income A m - sol.cFunc m) / income A m) := by
  simp only [savRteFunc, pyGet_ofNat, h, Option.map_some', income]

/-- When `f` succeeds everywhere on `l`, the vectorized call is a plain map. -/
theorem optMap_eq_map {α β : Type} (f : α → Option β) (g : α → β)
    (l : List α) (h : ∀ a ∈ l, f a = some (g a)) :
    optMap f l = some (l.map g) := by
  induction l with
  | nil => rfl
  | cons a as ih =>
    have ha := h a (List.mem_cons_self a as)
    have has := ih (fun b hb => h b (List.mem_cons_of_mem a hb))
    simp [optMap, ha, has]

/-- With a valid policy index, `savRteFunc` succeeds at every resource
level, with the rate written through `income`. -/
theorem savRteFunc_total (A : AgentType) (t : ℤ) (sol : PeriodSolution)
    (h : pyGet A.solution t = some sol) (m : ℚ) :
    savRteFunc A m t = some ((income A m - sol.cFunc m) / income A m) := by
  simp only [savRteFunc, h, Option.map_some', income]

/-- With a valid policy index, a whole row succeeds elementwise. -/
theorem savRteRow_eq_map (A : AgentType) (t : ℤ) (sol : PeriodSolution)
    (h : pyGet A.solution t = some sol) (row : List ℚ) :
    savRteRow A row t
      = some (row.map (fun m => (income A m - sol.cFunc m) / income A m)) :=
  optMap_eq_map _ _ row (fun m _ => savRteFunc_total A t sol h m)

/-- With a valid policy index, the whole series is the per-row mean of the
elementwise rates. -/
theorem savRteSeries_eq_map (A : AgentType) (t : ℤ) (sol : PeriodSolution)
    (h : pyGet A.solution t = some sol) (history : List (List ℚ)) :
    savRteSeries A history t
      = some (history.map (fun row =>
          npMean (row.map (fun m =>
            (income A m - sol.cFunc m) / income A m)))) := by
  have hrows := optMap_eq_map (fun row => savRteRow A row t)
    (fun row => row.map (fun m => (income A m - sol.cFunc m) / income A m))
    history (fun row _ => savRteRow_eq_map A t sol h row)
  simp only [savRteSeries, hrows, Option.map_some', List.map_map]
  rfl

/- Claim theorems. -/

/-- C1: for every solved agent type, every `m`, and every valid period
index `t`, `savRteFunc` returns `(income - cFunc[t](m)) / income` with
`income = (R - 1)*(m - 1) + 1`; in the scenario `R = 1.03`, `m = 2`,
`cFunc[t](2) = 1.8`, income is `1.03`, saving is `-0.77`, and the returned
rate is within `10⁻⁴` of `-0.7476`. -/
theorem savRteFunc_formula_and_scenario :
    (∀ (A : AgentType) (m : ℚ) (t : ℕ) (h : t < A.solution.length),
        savRteFunc A m (t : ℤ)
          = some ((income A m - (A.solution.get ⟨t, h⟩).cFunc m)
              / income A m))
    ∧ (income scenAgent1 2 = 103 / 100
       ∧ scenPolicy1.cFunc 2 = 9 / 5
       ∧ income scenAgent1 2 - scenPolicy1.cFunc 2 = -(77 / 100)
       ∧ ∃ r, savRteFunc scenAgent1 2 0 = some r
           ∧ |r + 7476 / 10000| < 1 / 10000) := by
  constructor
  · intro A m t h
    exact savRteFunc_eq_of_get A m t _ (List.get?_eq_get h)
  · refine ⟨by norm_num [income, scenAgent1],
      by norm_num [scenPolicy1],
      by norm_num [income, scenAgent1, scenPolicy1],
      -77 / 103, ?_, by norm_num [abs]⟩
    norm_num [savRteFunc, pyGet, scenAgent1, scenPolicy1]

/-- Witness for C1 at `t = 0`, `m = 2` on the scenario agent. -/
theorem savRteFunc_formula_and_scenario_witness :
    savRteFunc scenAgent1 2 ((0 : ℕ) : ℤ)
      = some ((income scenAgent1 2
          - (scenAgent1.solution.get ⟨0, by decide⟩).cFunc 2)
            / income scenAgent1 2) :=
  savRteFunc_formula_and_scenario.1 scenAgent1 2 0 (by decide)

/-- C7: when `m = 1` and the period-`t` policy has `cFunc(1) = 1` exactly,
the saving rate is exactly `0` (income is exactly `1`, saving exactly `0`). -/
theorem savRte_zero_at_reference :
    ∀ (A : AgentType) (t : ℕ) (h : t < A.solution.length),
      (A.solution.get ⟨t, h⟩).cFunc 1 = 1 →
      savRteFunc A 1 (t : ℤ) = some 0 := by
  intro A t h hc
  rw [savRteFunc_eq_of_get A 1 t _ (List.get?_eq_get h), hc]
  norm_num [income]

/-- Witness for C7 on the linear-policy agent, whose policy fixes `1`. -/
theorem savRte_zero_at_reference_witness :
    savRteFunc scenAgent2 1 ((0 : ℕ) : ℤ) = some 0 :=
  savRte_zero_at_reference scenAgent2 0 (by decide) rfl

/-- C5: a period index at or beyond the length of the solved policy
sequence makes `savRteFunc` fail with an index error (no numeric result). -/
theorem savRteFunc_invalid_index :
    ∀ (A : AgentType) (m : ℚ) (t : ℤ),
      (A.solution.length : ℤ) ≤ t → savRteFunc A m t = none := by
  intro A m t ht
  have h0 : 0 ≤ t := le_trans (Int.ofNat_nonneg _) ht
  have hlen : A.solution.length ≤ t.toNat := by omega
  simp [savRteFunc, pyGet, h0, List.get?_eq_none.mpr hlen]
  omega

/-- Witness for C5: the scenario agent has one solved period, so `t = 1`
is out of range. -/
theorem savRteFunc_invalid_index_witness :
    savRteFunc scenAgent1 2 1 = none :=
  savRteFunc_invalid_index scenAgent1 2 1 (by decide)

/-- C9: a negative period index `t` with `-len ≤ t ≤ -1` does not fail:
the policy is silently taken from the end of the sequence, at position
`len + t`, and the saving rate is computed with that policy. -/
theorem savRteFunc_negative_index :
    ∀ (A : AgentType) (m : ℚ) (t : ℤ),
      -(A.solution.length : ℤ) ≤ t → t < 0 →
      ∃ sol, A.solution.get? ((A.solution.length : ℤ) + t).toNat = some sol
        ∧ savRteFunc A m t
            = some ((income A m - sol.cFunc m) / income A m) := by
  intro A m t hlo hhi
  have hidx : ((A.solution.length : ℤ) + t).toNat < A.solution.length := by
    omega
  refine ⟨A.solution.get ⟨_, hidx⟩, List.get?_eq_get hidx, ?_⟩
  have hp : pyGet A.solution t = some (A.solution.get ⟨_, hidx⟩) := by
    simp only [pyGet, if_neg (by omega : ¬ 0 ≤ t),
      if_pos hlo, List.get?_eq_get hidx]
  exact savRteFunc_total A t _ hp m

/-- Witness for C9 at `t = -1` on the scenario agent. -/
theorem savRteFunc_negative_index_witness :
    ∃ sol, scenAgent1.solution.get?
        ((scenAgent1.solution.length : ℤ) + (-1)).toNat = some sol
      ∧ savRteFunc scenAgent1 2 (-1)
          = some ((income scenAgent1 2 - sol.cFunc 2) / income scenAgent1 2) :=
  savRteFunc_negative_index scenAgent1 2 (-1) (by decide) (by decide)

/-- C8: `savRteFunc` has no side effects: the state-passing form returns
the agent object unchanged, and the numeric result depends only on the
inputs it reads (`Rfree`, `solution`, `m`, `t`), not on the histories. -/
theorem savRteFunc_pure :
    ∀ (A B : AgentType) (m : ℚ) (t : ℤ),
      (savRteFuncSt A m t).2 = A
      ∧ (A.Rfree = B.Rfree → A.solution = B.solution →
          (savRteFuncSt A m t).1 = (savRteFuncSt B m t).1) := by
  intro A B m t
  refine ⟨rfl, fun h1 h2 => ?_⟩
  simp only [savRteFuncSt, savRteFunc, h1, h2]

/-- Witness for C8: two agents equal except for their histories give the
same result, and each call leaves the object unchanged. -/
theorem savRteFunc_pure_witness :
    (savRteFuncSt histAgent1 2 0).2 = histAgent1
    ∧ (savRteFuncSt histAgent1 2 0).1 = (savRteFuncSt histAgent2 2 0).1 :=
  ⟨(savRteFunc_pure histAgent1 histAgent2 2 0).1,
   (savRteFunc_pure histAgent1 histAgent2 2 0).2 rfl rfl⟩

/-- C10: with strictly positive income and nonnegative consumption at `m`,
the saving rate is at most `1`. -/
theorem savRte_le_one :
    ∀ (A : AgentType) (m : ℚ) (t : ℕ) (h : t < A.solution.length),
      0 < income A m → 0 ≤ (A.solution.get ⟨t, h⟩).cFunc m →
      ∃ r, savRteFunc A m (t : ℤ) = some r ∧ r ≤ 1 := by
  intro A m t h hinc hc
  refine ⟨_, savRteFunc_eq_of_get A m t _ (List.get?_eq_get h), ?_⟩
  have hne : income A m ≠ 0 := ne_of_gt hinc
  rw [sub_div, div_self hne]
  have : 0 ≤ (A.solution.get ⟨t, h⟩).cFunc m / income A m :=
    div_nonneg hc (le_of_lt hinc)
  linarith

/-- Witness for C10 on the scenario agent at `m = 2`. -/
theorem savRte_le_one_witness :
    0 < income scenAgent1 2
    ∧ ∃ r, savRteFunc scenAgent1 2 ((0 : ℕ) : ℤ) = some r ∧ r ≤ 1 :=
  ⟨by norm_num [income, scenAgent1],
   savRte_le_one scenAgent1 2 0 (by decide)
     (by norm_num [income, scenAgent1])
     (by norm_num [scenAgent1, scenPolicy1, List.get])⟩

/-- C2: the aggregator applies `savRteFunc` elementwise across the agents
of each time row with the same fixed policy index and returns the
arithmetic mean across agents, one value per time row; in the scenario
with `m = [1, 2, 3]`, the linear policy and `R = 1.03`, the per-agent
rates are `[0, -0.9417, -1.8302]` (to `10⁻⁴`) and the mean is within
`10⁻³` of `-0.924`. -/
theorem savRteSeries_elementwise_mean :
    (∀ (A : AgentType) (hist : List (List ℚ)) (t : ℤ)
        (sol : PeriodSolution),
        pyGet A.solution t = some sol →
        ∃ l, savRteSeries A hist t = some l ∧ l.length = hist.length ∧
          ∀ (j : ℕ) (row : List ℚ), hist.get? j = some row →
            ∃ rates, savRteRow A row t = some rates
              ∧ rates.length = row.length
              ∧ (∀ (i : ℕ) (m : ℚ), row.get? i = some m →
                  ∃ r, savRteFunc A m t = some r ∧ rates.get? i = some r)
              ∧ l.get? j = some (npMean rates)
              ∧ (rates ≠ [] →
                  npMean rates
                    = NpFloat.val (rates.sum / (rates.length : ℚ))))
    ∧ (∃ r1 r2 r3 q,
        savRteRow scenAgent2 [1, 2, 3] 0 = some [r1, r2, r3]
        ∧ r1 = 0
        ∧ |r2 + 9417 / 10000| < 1 / 10000
        ∧ |r3 + 18302 / 10000| < 1 / 10000
        ∧ savRteSeries scenAgent2 [[1, 2, 3]] 0 = some [NpFloat.val q]
        ∧ q = (r1 + r2 + r3) / 3
        ∧ |q + 924 / 1000| < 1 / 1000) := by
  constructor
  · intro A hist t sol hp
    refine ⟨_, savRteSeries_eq_map A t sol hp hist, List.length_map _ _,
      fun j row hj => ?_⟩
    refine ⟨_, savRteRow_eq_map A t sol hp row, List.length_map _ _,
      fun i m hi => ?_, ?_, fun hne => ?_⟩
    · exact ⟨_, savRteFunc_total A t sol hp m,
        by rw [List.get?_map, hi]; rfl⟩
    · rw [List.get?_map, hj]; rfl
    · have hlen : (row.map (fun m =>
          (income A m - sol.cFunc m) / income A m)).length ≠ 0 :=
        fun hz => hne (List.eq_nil_of_length_eq_zero hz)
      simp only [npMean, if_neg hlen]
  · refine ⟨0, -97 / 103, -97 / 53, -5044 / 5459,
      by norm_num [savRteRow, optMap, savRteFunc, pyGet, scenAgent2,
        linPolicy],
      rfl, by norm_num [abs], by norm_num [abs],
      by norm_num [savRteSeries, savRteRow, optMap, npMean, savRteFunc,
        pyGet, scenAgent2, linPolicy],
      by norm_num, by norm_num [abs]⟩

/-- Witness for C2 at the scenario agent and the one-row history. -/
theorem savRteSeries_elementwise_mean_witness :
    pyGet scenAgent2.solution 0 = some linPolicy
    ∧ (∃ l, savRteSeries scenAgent2 [[1, 2, 3]] 0 = some l
        ∧ l.length = [[(1 : ℚ), 2, 3]].length
        ∧ ∀ (j : ℕ) (row : List ℚ),
            [[(1 : ℚ), 2, 3]].get? j = some row →
            ∃ rates, savRteRow scenAgent2 row 0 = some rates
              ∧ rates.length = row.length
              ∧ (∀ (i : ℕ) (m : ℚ), row.get? i = some m →
                  ∃ r, savRteFunc scenAgent2 m 0 = some r
                    ∧ rates.get? i = some r)
              ∧ l.get? j = some (npMean rates)
              ∧ (rates ≠ [] →
                  npMean rates
                    = NpFloat.val (rates.sum / (rates.length : ℚ)))) :=
  ⟨rfl, savRteSeries_elementwise_mean.1 scenAgent2 [[1, 2, 3]] 0
    linPolicy rfl⟩

/-- C3 as stated is false on the code: for the agent with `R = 1.03 > 1`
and the linear policy (monotone, slope exactly `1`, so slope at most `1`),
the saving rate strictly decreases from `m = 1` to `m = 2`. -/
theorem savRte_monotone_counterexample :
    1 < scenAgent2.Rfree
    ∧ Monotone linPolicy.cFunc
    ∧ slopeLE1 linPolicy.cFunc
    ∧ (1 : ℚ) ≤ 2
    ∧ savRteFunc scenAgent2 1 0 = some 0
    ∧ savRteFunc scenAgent2 2 0 = some (-97 / 103)
    ∧ ¬ ((0 : ℚ) ≤ -97 / 103) := by
  refine ⟨by norm_num [scenAgent2], fun _ _ h => h,
    fun x y _ => le_refl (y - x), by norm_num, ?_, ?_, by norm_num⟩
  · norm_num [savRteFunc, pyGet, scenAgent2, linPolicy]
  · norm_num [savRteFunc, pyGet, scenAgent2, linPolicy]

/-- C3 amended: with `R > 1`, a valid period index, incomes positive at
both points, and the consumption increment between the points at most the
average consumption-to-income ratio times the income increment, the saving
rate is non-decreasing from `m1` to `m2`. -/
theorem savRte_monotone_amended :
    ∀ (A : AgentType) (t : ℕ) (h : t < A.solution.length) (m1 m2 : ℚ),
      1 < A.Rfree → m1 ≤ m2 →
      0 < income A m1 → 0 < income A m2 →
      (A.solution.get ⟨t, h⟩).cFunc m2 - (A.solution.get ⟨t, h⟩).cFunc m1
        ≤ ((A.solution.get ⟨t, h⟩).cFunc m1 / income A m1)
            * (income A m2 - income A m1) →
      ∃ r1 r2, savRteFunc A m1 (t : ℤ) = some r1
        ∧ savRteFunc A m2 (t : ℤ) = some r2 ∧ r1 ≤ r2 := by
  intro A t h m1 m2 hR hm h1 h2 hprop
  refine ⟨_, _, savRteFunc_eq_of_get A m1 t _ (List.get?_eq_get h),
    savRteFunc_eq_of_get A m2 t _ (List.get?_eq_get h), ?_⟩
  set c := (A.solution.get ⟨t, h⟩).cFunc with hc
  rw [div_le_div_iff h1 h2]
  have hkey : c m2 * income A m1 ≤ c m1 * income A m2 := by
    have h3 : (c m2 - c m1) * income A m1
        ≤ c m1 / income A m1 * (income A m2 - income A m1) * income A m1 :=
      mul_le_mul_of_nonneg_right hprop (le_of_lt h1)
    have h4 : c m1 / income A m1 * (income A m2 - income A m1) * income A m1
        = c m1 * (income A m2 - income A m1) := by
      field_simp
    nlinarith
  nlinarith

/-- Witness for the amended C3 on the constant-consumption agent between
`m1 = 1` and `m2 = 2`. -/
theorem savRte_monotone_amended_witness :
    1 < constAgent.Rfree ∧ 0 < income constAgent 1
    ∧ 0 < income constAgent 2
    ∧ ∃ r1 r2, savRteFunc constAgent 1 ((0 : ℕ) : ℤ) = some r1
        ∧ savRteFunc constAgent 2 ((0 : ℕ) : ℤ) = some r2 ∧ r1 ≤ r2 :=
  ⟨by norm_num [constAgent], by norm_num [income, constAgent],
   by norm_num [income, constAgent],
   savRte_monotone_amended constAgent 0 (by decide) 1 2
     (by norm_num [constAgent]) (by norm_num)
     (by norm_num [income, constAgent])
     (by norm_num [income, constAgent])
     (by norm_num [income, constAgent, constPolicy, List.get])⟩

/-- C4 as stated is false on the code: aggregation over a history whose
row has zero agents does not raise; NumPy means the empty slice to NaN
(with a runtime warning) and the call returns normally. -/
theorem aggregator_empty_row_counterexample :
    savRteSeries scenAgent2 [([] : List ℚ)] 0 = some [NpFloat.nan]
    ∧ savRteSeries scenAgent2 [([] : List ℚ)] 0 ≠ none := by
  have h : savRteSeries scenAgent2 [([] : List ℚ)] 0
      = some [NpFloat.nan] := by
    norm_num [savRteSeries, savRteRow, optMap, npMean]
  exact ⟨h, by rw [h]; exact Option.some_ne_none _⟩

/-- C4 amended: with a valid policy index, aggregation over a history
containing an empty row returns normally, with NaN (not an error) as that
row's aggregate value. -/
theorem aggregator_empty_row_nan :
    ∀ (A : AgentType) (t : ℤ) (sol : PeriodSolution)
      (hist : List (List ℚ)) (j : ℕ),
      pyGet A.solution t = some sol →
      hist.get? j = some ([] : List ℚ) →
      ∃ l, savRteSeries A hist t = some l
        ∧ l.get? j = some NpFloat.nan := by
  intro A t sol hist j hp hj
  refine ⟨_, savRteSeries_eq_map A t sol hp hist, ?_⟩
  rw [List.get?_map, hj]
  rfl

/-- Witness for the amended C4 on the scenario agent and the history with
one empty row. -/
theorem aggregator_empty_row_nan_witness :
    ∃ l, savRteSeries scenAgent2 [([] : List ℚ)] 0 = some l
      ∧ l.get? 0 = some NpFloat.nan :=
  aggregator_empty_row_nan scenAgent2 0 linPolicy [[]] 0 rfl rfl
